import Mathlib

/-!
Shallow embedding of the Bubble Pop game (TypeScript sources under `src/`):
the storage service (`src/services/storageService.ts`), the level table
(`src/constants.ts`), and the in-game simulation pieces of
`src/components/GameCanvas.tsx` (one-euro filter, coordinate mapper,
deadzone stabilizer, pop resolution, per-tick bubble processing), with
theorems checking the natural-language specification against this code.
-/

namespace BubblePop

/-- `GameMode` from `src/types` (part_001). -/
inductive GameMode where
  | LEVELS
  | INFINITE
deriving DecidableEq, Repr

/-- `GameStatus` from `src/types` (part_001). -/
inductive GameStatus where
  | MENU
  | PLAYING
  | GAME_OVER
  | PAUSED
deriving DecidableEq, Repr

/-- `BubbleType` from `src/types` (part_001). -/
inductive BubbleType where
  | NORMAL
  | RARE
  | BOMB
  | HEART
deriving DecidableEq, Repr

/-! ## Storage service (`src/services/storageService.ts`) -/

/-- The parsed content of the checkpoint slot in localStorage.
`corrupt` models a record that `JSON.parse` rejects; `parsed` models a
parsed object, whose `highestUnlockedLevel` field is `none` when
`Math.floor(data.highestUnlockedLevel)` is not a finite number
(missing field, string, `Infinity`, ...), and `some lvl` when it floors
to the integer `lvl`. -/
inductive RawCheckpoint where
  | corrupt
  | parsed (highestUnlockedLevel : Option Int) (version : Int) (savedAt : Int)
deriving DecidableEq, Repr

/-- The checkpoint slot of localStorage: `none` when no record is stored. -/
def CheckpointStore := Option RawCheckpoint
deriving DecidableEq, Repr

/-- `CheckpointPayload` from `storageService.ts`. -/
structure CheckpointPayload where
  version : Int
  highestUnlockedLevel : Int
  savedAt : Int
deriving DecidableEq, Repr

/-- `makeCheckpointPayload` from `storageService.ts`; the argument is an
integer here, so `Math.floor` is the identity.  `Date.now()` is passed in
as `now`. -/
def makeCheckpointPayload (now : Int) (highestUnlockedLevel : Int) : CheckpointPayload :=
  { version := 2
    highestUnlockedLevel := max 1 highestUnlockedLevel
    savedAt := now }

/-- `loadCheckpoint` from `storageService.ts`.  Returns the payload the
call yields together with the checkpoint slot it leaves behind
(`localStorage.removeItem` empties the slot on corrupt or sub-1 data). -/
def loadCheckpoint (store : CheckpointStore) : CheckpointPayload × CheckpointStore :=
  match store with
  | none => ({ version := 2, highestUnlockedLevel := 1, savedAt := 0 }, none)
  | some RawCheckpoint.corrupt =>
      ({ version := 2, highestUnlockedLevel := 1, savedAt := 0 }, none)
  | some (RawCheckpoint.parsed lvlOpt version savedAt) =>
      match lvlOpt with
      | none => ({ version := 2, highestUnlockedLevel := 1, savedAt := 0 }, none)
      | some lvl =>
          if lvl < 1 then
            ({ version := 2, highestUnlockedLevel := 1, savedAt := 0 }, none)
          else
            ({ version := version, highestUnlockedLevel := lvl, savedAt := savedAt },
             some (RawCheckpoint.parsed (some lvl) version savedAt))

/-- `saveUnlockedLevelIfHigher` from `storageService.ts`; `levelJustCleared`
is an integer here, so `Math.floor` is the identity.  `now` stands for
`Date.now()` inside `makeCheckpointPayload`.  The JS `cp.highestUnlockedLevel || 1`
is `max`-free in the embedding because `loadCheckpoint` yields the raw field;
we keep the `|| 1` guard as a comparison with 1 replaced by the field when
nonzero, which for integers is: the field itself if it is not 0, else 1. -/
def saveUnlockedLevelIfHigher (now : Int) (levelJustCleared : Int)
    (store : CheckpointStore) : CheckpointStore :=
  let nextUnlocked := max 1 (levelJustCleared + 1)
  let cp := (loadCheckpoint store).1
  let prev := if cp.highestUnlockedLevel = 0 then 1 else cp.highestUnlockedLevel
  if nextUnlocked ≤ prev then (loadCheckpoint store).2
  else
    some (RawCheckpoint.parsed
      (some (makeCheckpointPayload now nextUnlocked).highestUnlockedLevel)
      (makeCheckpointPayload now nextUnlocked).version
      (makeCheckpointPayload now nextUnlocked).savedAt)

/-- The highest-unlocked-level value a load of the given slot reports. -/
def readUnlockedLevel (store : CheckpointStore) : Int :=
  (loadCheckpoint store).1.highestUnlockedLevel

/-- A checkpoint slot is well formed when it is empty or holds a parsed
record with an integer level of at least 1 — exactly the slots the storage
API itself ever produces. -/
def WellFormedStore : CheckpointStore → Prop
  | none => True
  | some RawCheckpoint.corrupt => False
  | some (RawCheckpoint.parsed none _ _) => False
  | some (RawCheckpoint.parsed (some lvl) _ _) => 1 ≤ lvl

instance : (store : CheckpointStore) → Decidable (WellFormedStore store)
  | none => isTrue trivial
  | some RawCheckpoint.corrupt => isFalse id
  | some (RawCheckpoint.parsed none _ _) => isFalse id
  | some (RawCheckpoint.parsed (some lvl) _ _) =>
      inferInstanceAs (Decidable (1 ≤ lvl))

/-- Folding a sequence of `saveUnlockedLevelIfHigher` calls over a slot. -/
def saveSequence (now : Int) (calls : List Int) (store : CheckpointStore) :
    CheckpointStore :=
  calls.foldl (fun st lvl => saveUnlockedLevelIfHigher now lvl st) store

/-- `getHighScore`/`saveHighScore` operate on the parsed score record
`scores`; absent entries read as 0 via `scores[mode] || 0`.  We model the
record as a total map from modes to scores (natural numbers). -/
def HighScores := GameMode → Nat

/-- `getHighScore` from `storageService.ts` (on the parsed record). -/
def getHighScore (scores : HighScores) (mode : GameMode) : Nat :=
  scores mode

/-- `saveHighScore` from `storageService.ts`: returns whether a new record
was set, together with the record left in storage. -/
def saveHighScore (scores : HighScores) (mode : GameMode) (score : Nat) :
    Bool × HighScores :=
  let currentHigh := getHighScore scores mode
  if score > currentHigh then
    (true, fun m => if m = mode then score else scores m)
  else
    (false, scores)

/-- The empty score record: every mode reads as 0. -/
def emptyScores : HighScores := fun _ => 0

/-! ## Level table (`src/constants.ts`) -/

/-- `SCORING` from `src/constants.ts`. -/
def SCORING : BubbleType → Nat
  | BubbleType.NORMAL => 10
  | BubbleType.RARE => 50
  | BubbleType.BOMB => 0
  | BubbleType.HEART => 0

/-- The `target` field computed by `generateLevels` in `src/constants.ts`
for 1-based level `i` (integer arithmetic, exact).  The `speedMod`,
`spawnMod` and `bombChance` fields of a level are floating-point tuning
values consumed only by the spawn code, which no verified claim touches,
so the embedding carries targets only. -/
def levelTarget (i : Nat) : Nat :=
  if i = 1 then 150
  else if i = 2 then 350
  else if i = 3 then 600
  else if i = 4 then 900
  else if i = 5 then 1250
  else if i ≤ 20 then 1250 + (i - 5) * 200
  else if i ≤ 50 then 4250 + (i - 20) * 300
  else 13250 + (i - 50) * 400

/-- `LEVELS` from `src/constants.ts`: `generateLevels` pushes one level per
`i = 1..100` (projected to its `target`). -/
def LEVELS : List Nat := (List.range 100).map (fun k => levelTarget (k + 1))

/-! ## Game entities and session state (`src/components/GameCanvas.tsx`) -/

/-- `BubbleEntity` from `src/types` (part_001). -/
structure BubbleEntity where
  id : String
  x : ℝ
  y : ℝ
  radius : ℝ
  speed : ℝ
  wobbleOffset : ℝ
  type : BubbleType
  opacity : ℝ
  isPopped : Bool

/-- `Particle` as pushed by `createParticles` in `GameCanvas.tsx`.
The random string id is never read and is not modeled. -/
structure Particle where
  x : ℝ
  y : ℝ
  vx : ℝ
  vy : ℝ
  life : ℝ
  color : String
  size : ℝ

/-- The particle color chosen in `createParticles` (default then
per-type overwrite). -/
def particleColor : BubbleType → String
  | BubbleType.BOMB => "rgba(255, 50, 50, 0.8)"
  | BubbleType.RARE => "rgba(255, 215, 0, 0.8)"
  | BubbleType.HEART => "rgba(255, 180, 200, 0.8)"
  | BubbleType.NORMAL => "rgba(200, 240, 255, 0.8)"

/-- `createParticles` from `GameCanvas.tsx`.  `rng` abstracts the stream of
`Math.random()` draws (one triple per particle: angle, speed, size). -/
noncomputable def createParticles (rng : ℕ → ℝ) (x y : ℝ) (t : BubbleType)
    (count : ℕ) : List Particle :=
  (List.range count).map fun i =>
    let angle := rng (3 * i) * (2 * Real.pi)
    let speed := rng (3 * i + 1) * 6 + 2
    { x := x
      y := y
      vx := Real.cos angle * speed
      vy := Real.sin angle * speed
      life := 1.0
      color := particleColor t
      size := rng (3 * i + 2) * 3 + 1 }

/-- The mutable `gameState.current` record of `GameCanvas.tsx`
(pointer bookkeeping fields included; DOM-only fields omitted). -/
structure GameState where
  status : GameStatus
  score : Nat
  lives : Int
  levelIndex : Nat
  levelScoreStart : Nat
  lastSpawnTime : ℝ
  bubbles : List BubbleEntity
  particles : List Particle
  inputType : String
  fingerPos : ℝ × ℝ
  lastStablePos : ℝ × ℝ
  lastHandTime : ℝ
  screenShake : ℝ
  message : String
  messageTimer : Nat

/-- `getStartingScore` from `GameCanvas.tsx`.  `LEVELS[lvlIndex - 1].target`
is an out-of-range access (a crash) when `lvlIndex - 1` is past the table,
modeled as `none`. -/
def getStartingScore (mode : GameMode) (lvlIndex : Int) : Option Nat :=
  if mode = GameMode.INFINITE ∨ lvlIndex ≤ 0 then some 0
  else LEVELS.get? (lvlIndex - 1).toNat

/-- `startLvlIndex` from `GameCanvas.tsx`: `Math.max(0, initialLevel - 1)`. -/
def startLvlIndex (initialLevel : Int) : Int := max 0 (initialLevel - 1)

/-- The initial `gameState.current` built in `GameCanvas.tsx` for a session
of the given mode and initial level (`none` when `getStartingScore`
crashes on an out-of-table level). -/
def initGameState (mode : GameMode) (initialLevel : Int) : Option GameState :=
  match getStartingScore mode (startLvlIndex initialLevel) with
  | none => none
  | some s0 => some
      { status := GameStatus.PLAYING
        score := s0
        lives := if mode = GameMode.LEVELS then 3 else 1
        levelIndex := (startLvlIndex initialLevel).toNat
        levelScoreStart := s0
        lastSpawnTime := 0
        bubbles := []
        particles := []
        inputType := "MOUSE"
        fingerPos := (-100, -100)
        lastStablePos := (-100, -100)
        lastHandTime := 0
        screenShake := 0
        message := ""
        messageTimer := 0 }

/-- `restartLevel` from `GameCanvas.tsx` (the `showMessage` call sets
`message` and `messageTimer`). -/
def restartLevel (s : GameState) : GameState :=
  { s with
      message := "Level Failed! Restarting..."
      messageTimer := 120
      screenShake := 30
      bubbles := []
      particles := []
      lives := 3
      score := s.levelScoreStart }

/-- `LEVELS[Math.min(levelIndex, LEVELS.length - 1)].target` as read by
`handlePop` and `gameLoop`. -/
def clampedLevelTarget (levelIndex : Nat) : Nat :=
  LEVELS.getD (min levelIndex (LEVELS.length - 1)) 0

/-- `endGame` from `GameCanvas.tsx`: sets `GAME_OVER` and reports the
current score upward through `onGameOver`. -/
def endGame (s : GameState) : GameState × Option Nat :=
  ({ s with status := GameStatus.GAME_OVER }, some s.score)

/-- `handlePop` from `GameCanvas.tsx`.  Returns the mutated game state, the
checkpoint slot after any `saveUnlockedLevelIfHigher` call, and the score
reported through `onGameOver` when `endGame` ran (`none` otherwise).
`rng` abstracts the `Math.random()` draws of the particle bursts, `now`
the `Date.now()` stamp used by the storage write; audio cues and React
`setState` mirrors are external effects, not modeled.  The source's
`bubble.isPopped = true` mutates an object that also sits in
`state.bubbles`; bubble ids are unique by construction, so the aliasing is
rendered as an id-keyed update of the list. -/
noncomputable def handlePop (mode : GameMode) (rng : ℕ → ℝ) (now : Int)
    (s : GameState) (store : CheckpointStore) (b : BubbleEntity) :
    GameState × CheckpointStore × Option Nat :=
  let s := { s with
    bubbles := s.bubbles.map fun (bb : BubbleEntity) =>
      if bb.id = b.id then { bb with isPopped := true } else bb }
  let step : GameState × Option Nat :=
    if b.type = BubbleType.BOMB then
      let s := { s with
        screenShake := 25
        particles := s.particles ++ createParticles rng b.x b.y BubbleType.BOMB 30 }
      if mode = GameMode.INFINITE then
        endGame s
      else
        let s := { s with lives := s.lives - 1 }
        if s.lives ≤ 0 then (restartLevel s, none) else (s, none)
    else
      let points := SCORING b.type
      let s := { s with
        score := s.score + points
        particles := s.particles ++ createParticles rng b.x b.y b.type 15 }
      let s :=
        if b.type = BubbleType.HEART then
          if s.lives < 3 then { s with lives := s.lives + 1 } else s
        else s
      (s, none)
  let s := step.1
  let gameOver := step.2
  if mode = GameMode.LEVELS then
    if s.score ≥ clampedLevelTarget s.levelIndex then
      let completedLevel : Int := (s.levelIndex : Int) + 1
      let store := saveUnlockedLevelIfHigher now completedLevel store
      let s := { s with levelIndex := s.levelIndex + 1 }
      let s := { s with levelScoreStart := s.score }
      let s := { s with
        message := "Level " ++ toString (s.levelIndex + 1) ++ "!"
        messageTimer := 120 }
      let s := { s with
        particles := s.particles ++
          (s.bubbles.map fun (bb : BubbleEntity) => createParticles rng bb.x bb.y bb.type 5).flatten }
      ({ s with bubbles := [] }, store, gameOver)
    else
      (s, store, gameOver)
  else
    (s, store, gameOver)

/-- `Math.hypot` on two arguments. -/
noncomputable def hypot (a b : ℝ) : ℝ := Real.sqrt (a ^ 2 + b ^ 2)

/-- The per-bubble motion + hit-test loop of `gameLoop`
(`state.bubbles.forEach` in `GameCanvas.tsx`): each bubble of the iterated
array moves up by its speed, and a non-popped bubble within
`radius * 1.3` of the stabilized pointer is handed to `handlePop`.
Returns the threaded state/store and the ids of the bubbles popped this
tick, in visit order. -/
noncomputable def processBubbles (mode : GameMode) (rng : ℕ → ℝ) (now : Int)
    (finger : ℝ × ℝ) :
    GameState → CheckpointStore → List BubbleEntity →
      (GameState × CheckpointStore) × List String
  | s, store, [] => ((s, store), [])
  | s, store, b :: rest =>
    let bMoved := { b with y := b.y - b.speed }
    if ¬ bMoved.isPopped ∧
        hypot (bMoved.x - finger.1) (bMoved.y - finger.2) < bMoved.radius * 1.3 then
      let popped := handlePop mode rng now s store bMoved
      let rest' := processBubbles mode rng now finger popped.1 popped.2.1 rest
      (rest'.1, bMoved.id :: rest'.2)
    else
      processBubbles mode rng now finger s store rest

/-! ## Input pipeline (`GameCanvas.tsx`): one-euro filter, mapper, deadzone -/

/-- The `OneEuroFilter` class state. -/
structure OneEuroFilter where
  minCutoff : ℝ
  beta : ℝ
  dCutoff : ℝ
  x : Option ℝ
  y : Option ℝ
  dx : ℝ
  dy : ℝ
  t : ℝ

namespace OneEuroFilter

/-- `OneEuroFilter.alpha` (the source's `1.0` literals written as `1`). -/
noncomputable def alpha (cutoff dt : ℝ) : ℝ :=
  let tau := 1 / (2 * Real.pi * cutoff)
  1 / (1 + tau / dt)

/-- `OneEuroFilter.lowPass`. -/
def lowPass (a prev value : ℝ) : ℝ := prev + a * (value - prev)

/-- `OneEuroFilter.update`.  `now` is the `performance.now()` stamp of this
call; the elapsed time is floored at 0.001 s exactly as in the source. -/
noncomputable def update (f : OneEuroFilter) (now nx ny : ℝ) :
    OneEuroFilter × (ℝ × ℝ) :=
  let dt := max 0.001 ((now - f.t) / 1000)
  let f := { f with t := now }
  match f.x, f.y with
  | some x, some y =>
    let rawDx := (nx - x) / dt
    let rawDy := (ny - y) / dt
    let aD := alpha f.dCutoff dt
    let dx := lowPass aD f.dx rawDx
    let dy := lowPass aD f.dy rawDy
    let speed := hypot dx dy
    let cutoff := f.minCutoff + f.beta * speed
    let a := alpha cutoff dt
    let x' := lowPass a x nx
    let y' := lowPass a y ny
    ({ f with dx := dx, dy := dy, x := some x', y := some y' }, (x', y'))
  | _, _ =>
    ({ f with x := some nx, y := some ny }, (nx, ny))

end OneEuroFilter

/-- The cover rectangle computed by `getCoverRect` in `GameCanvas.tsx`. -/
structure CoverRect where
  drawW : ℝ
  drawH : ℝ
  offsetX : ℝ
  offsetY : ℝ

/-- `getCoverRect` from `GameCanvas.tsx`. -/
noncomputable def getCoverRect (videoW videoH stageW stageH : ℝ) : CoverRect :=
  let videoAR := videoW / videoH
  let stageAR := stageW / stageH
  if videoAR > stageAR then
    { drawW := stageH * videoAR
      drawH := stageH
      offsetX := (stageW - stageH * videoAR) / 2
      offsetY := 0 }
  else
    { drawW := stageW
      drawH := stageW / videoAR
      offsetX := 0
      offsetY := (stageH - stageW / videoAR) / 2 }

/-- `mapLandmarkToStage` from `GameCanvas.tsx`, with the process-wide
`CAMERA_MIRRORED` constant passed as `mirrored` and the video/stage
dimensions as arguments.  Returns `none` when any dimension is zero
(unknown), as the source's guard does. -/
noncomputable def mapLandmarkToStage (mirrored : Bool)
    (vw vh stageW stageH normX normY : ℝ) : Option (ℝ × ℝ) :=
  if vw = 0 ∨ vh = 0 ∨ stageW = 0 ∨ stageH = 0 then none
  else
    let xN := if mirrored then 1 - normX else normX
    let yN := normY
    let xV := xN * vw
    let yV := yN * vh
    let r := getCoverRect vw vh stageW stageH
    let scale := r.drawW / vw
    some (r.offsetX + xV * scale, r.offsetY + yV * scale)

/-- The scale factor `drawW / vw` applied by `mapLandmarkToStage` — the
cover transform's scale. -/
noncomputable def coverScale (vw vh stageW stageH : ℝ) : ℝ :=
  (getCoverRect vw vh stageW stageH).drawW / vw

/-- `CAMERA_MIRRORED` from `src/constants.ts`. -/
def CAMERA_MIRRORED : Bool := true

/-- `applyDeadzone` from `GameCanvas.tsx`, with the mutable
`state.lastStablePos` passed in; the returned point is also the new
`lastStablePos` (the source stores exactly what it returns, in every
branch). -/
noncomputable def applyDeadzone (lastStablePos newPos : ℝ × ℝ) : ℝ × ℝ :=
  if lastStablePos.1 = -100 then newPos
  else
    let dx := newPos.1 - lastStablePos.1
    let dy := newPos.2 - lastStablePos.2
    if hypot dx dy < 2.0 then lastStablePos
    else newPos

/-! ## Theorems: storage service claims -/

lemma loadCheckpoint_fst_ge_one (store : CheckpointStore) :
    1 ≤ (loadCheckpoint store).1.highestUnlockedLevel := by
  rcases store with _ | raw
  · simp [loadCheckpoint]
  · rcases raw with _ | ⟨lvlOpt, version, savedAt⟩
    · simp [loadCheckpoint]
    · rcases lvlOpt with _ | lvl
      · simp [loadCheckpoint]
      · simp only [loadCheckpoint]
        split_ifs with h
        · simp
        · change 1 ≤ lvl
          omega

lemma readUnlockedLevel_loadSnd (store : CheckpointStore) :
    readUnlockedLevel (loadCheckpoint store).2 = readUnlockedLevel store := by
  rcases store with _ | raw
  · rfl
  · rcases raw with _ | ⟨lvlOpt, version, savedAt⟩
    · rfl
    · rcases lvlOpt with _ | lvl
      · rfl
      · by_cases h : lvl < 1
        · simp only [readUnlockedLevel, loadCheckpoint, if_pos h]
        · simp only [readUnlockedLevel, loadCheckpoint, if_neg h]

lemma saveUnlockedLevelIfHigher_eq (now lvl : Int) (store : CheckpointStore) :
    saveUnlockedLevelIfHigher now lvl store =
      if max 1 (lvl + 1) ≤ readUnlockedLevel store then (loadCheckpoint store).2
      else some (RawCheckpoint.parsed (some (max 1 (lvl + 1))) 2 now) := by
  have h1 := loadCheckpoint_fst_ge_one store
  have hcp : (if (loadCheckpoint store).1.highestUnlockedLevel = 0 then 1
      else (loadCheckpoint store).1.highestUnlockedLevel) =
      (loadCheckpoint store).1.highestUnlockedLevel := by
    rw [if_neg (by omega)]
  simp only [saveUnlockedLevelIfHigher, makeCheckpointPayload, readUnlockedLevel]
  rw [hcp]
  split_ifs with h
  · rfl
  · rw [show max 1 (max 1 (lvl + 1)) = max 1 (lvl + 1) from by
      rw [← max_assoc, max_self]]

lemma readUnlockedLevel_write (now n : Int) (h : 1 ≤ n) :
    readUnlockedLevel (some (RawCheckpoint.parsed (some n) 2 now)) = n := by
  simp only [readUnlockedLevel, loadCheckpoint]
  rw [if_neg (by omega)]

lemma readUnlockedLevel_save_le (now lvl : Int) (store : CheckpointStore) :
    readUnlockedLevel store ≤
      readUnlockedLevel (saveUnlockedLevelIfHigher now lvl store) := by
  rw [saveUnlockedLevelIfHigher_eq]
  split_ifs with h
  · rw [readUnlockedLevel_loadSnd]
  · rw [readUnlockedLevel_write now _ (le_max_left 1 (lvl + 1))]
    omega

lemma readUnlockedLevel_saveSequence_le (now : Int) (calls : List Int) :
    ∀ store : CheckpointStore,
      readUnlockedLevel store ≤ readUnlockedLevel (saveSequence now calls store) := by
  induction calls with
  | nil => intro store; exact le_refl _
  | cons c rest ih =>
      intro store
      exact le_trans (readUnlockedLevel_save_le now c store)
        (ih (saveUnlockedLevelIfHigher now c store))

lemma loadCheckpoint_snd_of_wellFormed (store : CheckpointStore)
    (hwf : WellFormedStore store) : (loadCheckpoint store).2 = store := by
  rcases store with _ | raw
  · rfl
  · rcases raw with _ | ⟨lvlOpt, version, savedAt⟩
    · exact absurd hwf id
    · rcases lvlOpt with _ | lvl
      · exact absurd hwf id
      · have h : 1 ≤ lvl := hwf
        simp only [loadCheckpoint]
        rw [if_neg (by omega)]

/-- C3: across any sequence of `saveUnlockedLevelIfHigher` calls the
persisted highest-unlocked-level value never decreases; a single call
writes the record `max 1 (clearedLevelIndex + 1)` exactly when that value
strictly exceeds the stored one, and otherwise leaves a well-formed slot
untouched. -/
theorem c3_saveUnlockedLevelIfHigher_monotone (now : Int) (store : CheckpointStore)
    (lvl : Int) (calls : List Int) (hwf : WellFormedStore store) :
    readUnlockedLevel store ≤ readUnlockedLevel (saveSequence now calls store) ∧
    (readUnlockedLevel store < max 1 (lvl + 1) →
      saveUnlockedLevelIfHigher now lvl store =
        some (RawCheckpoint.parsed (some (max 1 (lvl + 1))) 2 now)) ∧
    (max 1 (lvl + 1) ≤ readUnlockedLevel store →
      saveUnlockedLevelIfHigher now lvl store = store) := by
  refine ⟨readUnlockedLevel_saveSequence_le now calls store, ?_, ?_⟩
  · intro h
    rw [saveUnlockedLevelIfHigher_eq, if_neg (by omega)]
  · intro h
    rw [saveUnlockedLevelIfHigher_eq, if_pos h,
      loadCheckpoint_snd_of_wellFormed store hwf]

/-- Witness for C3 at concrete inputs: an empty slot, the call sequence
`[3, 1]`, a writing call (`lvl = 2`) and a non-writing call (`lvl = 0`). -/
theorem c3_saveUnlockedLevelIfHigher_monotone_witness :
    readUnlockedLevel none ≤ readUnlockedLevel (saveSequence 7 [3, 1] none) ∧
    saveUnlockedLevelIfHigher 7 2 none =
      some (RawCheckpoint.parsed (some 3) 2 7) ∧
    saveUnlockedLevelIfHigher 7 0 none = none := by
  refine ⟨(c3_saveUnlockedLevelIfHigher_monotone 7 none 2 [3, 1] trivial).1,
    ?_, ?_⟩
  · have h := (c3_saveUnlockedLevelIfHigher_monotone 7 none 2 [] trivial).2.1
      (by decide)
    simpa using h
  · exact (c3_saveUnlockedLevelIfHigher_monotone 7 none 0 [] trivial).2.2
      (by decide)

/-- C8: `saveHighScore` reports a new record exactly when the score
strictly exceeds the stored one, updates only that mode's entry in that
case, leaves the record untouched otherwise (in particular on an equal
score), and in the concrete scenario 500-then-300 on `INFINITE` keeps 500
with the second call reporting no record. -/
theorem c8_saveHighScore_strict (scores : HighScores) (mode : GameMode)
    (score : Nat) :
    ((saveHighScore scores mode score).1 = true ↔
      getHighScore scores mode < score) ∧
    (getHighScore scores mode < score →
      getHighScore (saveHighScore scores mode score).2 mode = score ∧
      ∀ m, m ≠ mode → (saveHighScore scores mode score).2 m = scores m) ∧
    (¬ getHighScore scores mode < score →
      (saveHighScore scores mode score).2 = scores) ∧
    ((saveHighScore (saveHighScore emptyScores GameMode.INFINITE 500).2
        GameMode.INFINITE 300).1 = false ∧
      getHighScore (saveHighScore (saveHighScore emptyScores GameMode.INFINITE 500).2
        GameMode.INFINITE 300).2 GameMode.INFINITE = 500) ∧
    ((saveHighScore scores mode (getHighScore scores mode)).1 = false ∧
      (saveHighScore scores mode (getHighScore scores mode)).2 = scores) := by
  refine ⟨?_, ?_, ?_, ⟨rfl, rfl⟩, ?_, ?_⟩
  · simp only [saveHighScore, getHighScore]
    split_ifs with h
    · simpa using h
    · simpa using h
  · intro h
    simp only [saveHighScore, getHighScore] at *
    rw [if_pos h]
    exact ⟨by simp, fun m hm => by simp [hm]⟩
  · intro h
    simp only [saveHighScore, getHighScore] at *
    rw [if_neg h]
  · simp [saveHighScore]
  · simp [saveHighScore]

/-- Witness for C8 at concrete inputs: a fresh record, mode `INFINITE`,
score 500 (a strict record), then 300 and the equal score 500. -/
theorem c8_saveHighScore_strict_witness :
    getHighScore (saveHighScore emptyScores GameMode.INFINITE 500).2
      GameMode.INFINITE = 500 ∧
    (saveHighScore (saveHighScore emptyScores GameMode.INFINITE 500).2
      GameMode.INFINITE 300).1 = false := by
  refine ⟨((c8_saveHighScore_strict emptyScores GameMode.INFINITE 500).2.1
    (by decide)).1, ?_⟩
  exact (c8_saveHighScore_strict emptyScores GameMode.INFINITE 300).2.2.2.1.1

/-- C9: `loadCheckpoint` on a missing, unparseable, non-finite or sub-1
record returns the default payload (highest unlocked level 1); in the
unparseable, non-finite and sub-1 cases the stored record is deleted, so
a subsequent load yields the default again. -/
theorem c9_loadCheckpoint_corrupt_defaults :
    loadCheckpoint none =
      ({ version := 2, highestUnlockedLevel := 1, savedAt := 0 }, none) ∧
    loadCheckpoint (some RawCheckpoint.corrupt) =
      ({ version := 2, highestUnlockedLevel := 1, savedAt := 0 }, none) ∧
    (∀ version savedAt,
      loadCheckpoint (some (RawCheckpoint.parsed none version savedAt)) =
        ({ version := 2, highestUnlockedLevel := 1, savedAt := 0 }, none)) ∧
    (∀ lvl version savedAt, lvl < 1 →
      loadCheckpoint (some (RawCheckpoint.parsed (some lvl) version savedAt)) =
        ({ version := 2, highestUnlockedLevel := 1, savedAt := 0 }, none)) ∧
    (∀ store : CheckpointStore, (loadCheckpoint store).2 = none →
      loadCheckpoint (loadCheckpoint store).2 =
        ({ version := 2, highestUnlockedLevel := 1, savedAt := 0 }, none)) := by
  refine ⟨rfl, rfl, fun version savedAt => rfl, fun lvl version savedAt h => ?_,
    fun store h => ?_⟩
  · simp only [loadCheckpoint]
    rw [if_pos h]
  · rw [h]
    rfl

/-- Witness for C9 at a concrete sub-1 record and its subsequent load. -/
theorem c9_loadCheckpoint_corrupt_defaults_witness :
    loadCheckpoint (some (RawCheckpoint.parsed (some 0) 2 5)) =
      ({ version := 2, highestUnlockedLevel := 1, savedAt := 0 }, none) ∧
    loadCheckpoint (loadCheckpoint (some (RawCheckpoint.parsed (some 0) 2 5))).2 =
      ({ version := 2, highestUnlockedLevel := 1, savedAt := 0 }, none) := by
  refine ⟨c9_loadCheckpoint_corrupt_defaults.2.2.2.1 0 2 5 (by decide), ?_⟩
  exact c9_loadCheckpoint_corrupt_defaults.2.2.2.2
    (some (RawCheckpoint.parsed (some 0) 2 5)) (by decide)

/-! ## Theorems: coordinate mapper and deadzone claims -/

/-- C4 counterexample: for a 640x480 source and 1280x720 destination the
code's cover scale is `drawW / vw = 2` — the destination-width over
source-width ratio — and not destination-height over source-height
(`720 / 480 = 3/2`), refuting the claimed scale. -/
theorem c4_coverScale_claim_false :
    coverScale 640 480 1280 720 = 2 ∧
    (720 : ℝ) / 480 = 3 / 2 ∧
    (2 : ℝ) ≠ 3 / 2 := by
  refine ⟨?_, by norm_num, by norm_num⟩
  simp only [coverScale, getCoverRect]
  rw [if_neg (by norm_num)]
  norm_num

/-- C4 amended: for a 640x480 source and 1280x720 destination the cover
scale equals `max (dstW/srcW) (dstH/srcH)` (here the width ratio, 2), and
the normalized point (1/2, 1/2) maps to the exact destination center
(640, 360) with mirroring on or off. -/
theorem c4_coverScale_amended :
    coverScale 640 480 1280 720 = max ((1280 : ℝ) / 640) ((720 : ℝ) / 480) ∧
    mapLandmarkToStage true 640 480 1280 720 (1 / 2) (1 / 2) =
      some (1280 / 2, 720 / 2) ∧
    mapLandmarkToStage false 640 480 1280 720 (1 / 2) (1 / 2) =
      some (1280 / 2, 720 / 2) := by
  refine ⟨?_, ?_, ?_⟩
  · simp only [coverScale, getCoverRect]
    rw [if_neg (by norm_num), max_eq_left (by norm_num)]
  · have hguard : ¬((640 : ℝ) = 0 ∨ (480 : ℝ) = 0 ∨ (1280 : ℝ) = 0 ∨ (720 : ℝ) = 0) := by
      norm_num
    have hcover : ¬((640 : ℝ) / 480 > 1280 / 720) := by norm_num
    simp only [mapLandmarkToStage, getCoverRect, if_neg hguard, if_neg hcover]
    norm_num
  · have hguard : ¬((640 : ℝ) = 0 ∨ (480 : ℝ) = 0 ∨ (1280 : ℝ) = 0 ∨ (720 : ℝ) = 0) := by
      norm_num
    have hcover : ¬((640 : ℝ) / 480 > 1280 / 720) := by norm_num
    simp only [mapLandmarkToStage, getCoverRect, if_neg hguard, if_neg hcover]
    norm_num

/-- C6: the deadzone stabilizer adopts the new point unconditionally when
no prior stable point exists (the -100 sentinel), returns the previous
stable point when the new point is within 2.0 pixels of it, and adopts
the new point otherwise. -/
theorem c6_applyDeadzone_threshold (last p : ℝ × ℝ) :
    (last.1 = -100 → applyDeadzone last p = p) ∧
    (last.1 ≠ -100 → hypot (p.1 - last.1) (p.2 - last.2) < 2.0 →
      applyDeadzone last p = last) ∧
    (last.1 ≠ -100 → ¬ hypot (p.1 - last.1) (p.2 - last.2) < 2.0 →
      applyDeadzone last p = p) := by
  refine ⟨fun h => ?_, fun h hd => ?_, fun h hd => ?_⟩
  · simp only [applyDeadzone]
    rw [if_pos h]
  · simp only [applyDeadzone]
    rw [if_neg h, if_pos hd]
  · simp only [applyDeadzone]
    rw [if_neg h, if_neg hd]

/-- Witness for C6: a first call adopts (5, 6); a point 1.0 pixel from the
stable point (10, 10) leaves it unchanged; a point 3.0 pixels away is
adopted. -/
theorem c6_applyDeadzone_threshold_witness :
    applyDeadzone (-100, 0) (5, 6) = (5, 6) ∧
    applyDeadzone (10, 10) (10, 11) = (10, 10) ∧
    applyDeadzone (10, 10) (10, 13) = (10, 13) := by
  refine ⟨(c6_applyDeadzone_threshold (-100, 0) (5, 6)).1 rfl,
    (c6_applyDeadzone_threshold (10, 10) (10, 11)).2.1 (by norm_num) ?_,
    (c6_applyDeadzone_threshold (10, 10) (10, 13)).2.2 (by norm_num) ?_⟩
  · show hypot ((10, 11).1 - (10, 10).1) ((10, 11).2 - (10, 10).2) < 2.0
    simp only [hypot]
    norm_num [Real.sqrt_one]
  · show ¬ hypot ((10, 13).1 - (10, 10).1) ((10, 13).2 - (10, 10).2) < 2.0
    simp only [hypot]
    norm_num
    rw [show (9 : ℝ) = 3 ^ 2 from by norm_num,
      Real.sqrt_sq (by norm_num : (0 : ℝ) ≤ 3)]
    norm_num

/-! ## Theorems: session initialization claim -/

lemma LEVELS_get?_lt (k : Nat) (h : k < 100) :
    LEVELS.get? k = some (levelTarget (k + 1)) := by
  simp [LEVELS, List.get?_eq_getElem?, List.getElem?_map, List.getElem?_range h]

/-- C10: a level-mode session started at level `L` with `2 ≤ L ≤ 101`
begins with score and recorded level-start score both equal to
`LEVELS[L-2].target`, the previous level's target; a session started at
level 1 or in endless mode begins with score 0. -/
theorem c10_initGameState_startingScore (mode : GameMode) (L : Int) :
    (mode = GameMode.LEVELS → 2 ≤ L → L ≤ 101 →
      ∃ st, initGameState mode L = some st ∧
        st.score = levelTarget (L - 1).toNat ∧
        st.levelScoreStart = levelTarget (L - 1).toNat ∧
        LEVELS.get? (L - 2).toNat = some (levelTarget (L - 1).toNat)) ∧
    (mode = GameMode.LEVELS → L ≤ 1 →
      ∃ st, initGameState mode L = some st ∧
        st.score = 0 ∧ st.levelScoreStart = 0) ∧
    (mode = GameMode.INFINITE →
      ∃ st, initGameState mode L = some st ∧
        st.score = 0 ∧ st.levelScoreStart = 0) := by
  refine ⟨fun hm h2 h101 => ?_, fun hm h1 => ?_, fun hm => ?_⟩
  · subst hm
    have hmax : startLvlIndex L = L - 1 := by
      simp only [startLvlIndex]
      omega
    have hk : ((L - 1 : Int) - 1).toNat = (L - 2).toNat := by omega
    have hlt : (L - 2).toNat < 100 := by omega
    have hsucc : (L - 2).toNat + 1 = (L - 1).toNat := by omega
    have hget : LEVELS.get? (L - 2).toNat = some (levelTarget (L - 1).toNat) := by
      rw [LEVELS_get?_lt _ hlt, hsucc]
    have hss : getStartingScore GameMode.LEVELS (startLvlIndex L) =
        some (levelTarget (L - 1).toNat) := by
      rw [hmax]
      simp only [getStartingScore]
      rw [if_neg ?_, hk, hget]
      rintro (h | h)
      · exact GameMode.noConfusion h
      · omega
    simp only [initGameState, hss]
    exact ⟨_, rfl, rfl, rfl, hget⟩
  · subst hm
    have hss : getStartingScore GameMode.LEVELS (startLvlIndex L) = some 0 := by
      simp only [getStartingScore]
      rw [if_pos (Or.inr ?_)]
      simp only [startLvlIndex]
      omega
    simp only [initGameState, hss]
    exact ⟨_, rfl, rfl, rfl⟩
  · subst hm
    have hss : getStartingScore GameMode.INFINITE (startLvlIndex L) = some 0 := by
      simp only [getStartingScore]
      rw [if_pos (Or.inl trivial)]
    simp only [initGameState, hss]
    exact ⟨_, rfl, rfl, rfl⟩

/-- Witness for C10 at concrete inputs: level-mode sessions at levels 5
and 1 (targets 900 and 0) and an endless session. -/
theorem c10_initGameState_startingScore_witness :
    (∃ st, initGameState GameMode.LEVELS 5 = some st ∧ st.score = 900 ∧
      st.levelScoreStart = 900) ∧
    (∃ st, initGameState GameMode.LEVELS 1 = some st ∧ st.score = 0) ∧
    (∃ st, initGameState GameMode.INFINITE 1 = some st ∧ st.score = 0) := by
  refine ⟨?_, ?_, ?_⟩
  · obtain ⟨st, h1, h2, h3, _⟩ :=
      (c10_initGameState_startingScore GameMode.LEVELS 5).1 rfl (by decide) (by decide)
    exact ⟨st, h1, by rw [h2]; decide, by rw [h3]; decide⟩
  · obtain ⟨st, h1, h2, _⟩ :=
      (c10_initGameState_startingScore GameMode.LEVELS 1).2.1 rfl (by decide)
    exact ⟨st, h1, h2⟩
  · obtain ⟨st, h1, h2, _⟩ :=
      (c10_initGameState_startingScore GameMode.INFINITE 1).2.2 rfl
    exact ⟨st, h1, h2⟩

/-! ## Theorems: pop resolution claims -/

/-- A concrete bubble for instantiating the pop-resolution theorems. -/
def sampleBubble (t : BubbleType) : BubbleEntity :=
  { id := "b1", x := 0, y := 0, radius := 10, speed := 1, wobbleOffset := 0,
    type := t, opacity := 1, isPopped := false }

/-- A concrete endless-mode session state (score 120). -/
def sampleState : GameState :=
  { status := GameStatus.PLAYING, score := 120, lives := 1, levelIndex := 0,
    levelScoreStart := 0, lastSpawnTime := 0, bubbles := [], particles := [],
    inputType := "MOUSE", fingerPos := (0, 0), lastStablePos := (0, 0),
    lastHandTime := 0, screenShake := 0, message := "", messageTimer := 0 }

/-- C2: in endless mode a hazard (BOMB) pop sets the session status to
GAME_OVER, reports exactly the pre-pop score through `onGameOver`, and
awards no points (the score is unchanged). -/
theorem c2_infinite_hazard_ends_session (rng : ℕ → ℝ) (now : Int)
    (s : GameState) (store : CheckpointStore) (b : BubbleEntity)
    (hb : b.type = BubbleType.BOMB) :
    (handlePop GameMode.INFINITE rng now s store b).1.status = GameStatus.GAME_OVER ∧
    (handlePop GameMode.INFINITE rng now s store b).2.2 = some s.score ∧
    (handlePop GameMode.INFINITE rng now s store b).1.score = s.score := by
  simp [handlePop, endGame, hb]

/-- Witness for C2: a concrete endless session with score 120 and a
concrete hazard bubble. -/
theorem c2_infinite_hazard_ends_session_witness :
    (handlePop GameMode.INFINITE (fun _ => 0) 0 sampleState none
      (sampleBubble BubbleType.BOMB)).1.status = GameStatus.GAME_OVER ∧
    (handlePop GameMode.INFINITE (fun _ => 0) 0 sampleState none
      (sampleBubble BubbleType.BOMB)).2.2 = some 120 := by
  have h := c2_infinite_hazard_ends_session (fun _ => 0) 0 sampleState none
    (sampleBubble BubbleType.BOMB) rfl
  exact ⟨h.1, h.2.1⟩

/-- C1 (amended): in level mode a hazard pop decrements lives by one; when
lives reach zero and the recorded level-start score is below the current
(clamped) level target, the same tick restarts the level: lives reset to
3, bubbles and particles cleared, score reset to the level-start score,
screen shake set to 30, status and level index unchanged, and no game-over
report. -/
theorem c1_levels_hazard_restart (rng : ℕ → ℝ) (now : Int) (s : GameState)
    (store : CheckpointStore) (b : BubbleEntity)
    (hb : b.type = BubbleType.BOMB)
    (hstart : s.levelScoreStart < clampedLevelTarget s.levelIndex) :
    (1 < s.lives →
      (handlePop GameMode.LEVELS rng now s store b).1.lives = s.lives - 1) ∧
    (s.lives ≤ 1 →
      (handlePop GameMode.LEVELS rng now s store b).1.lives = 3 ∧
      (handlePop GameMode.LEVELS rng now s store b).1.bubbles = [] ∧
      (handlePop GameMode.LEVELS rng now s store b).1.particles = [] ∧
      (handlePop GameMode.LEVELS rng now s store b).1.score = s.levelScoreStart ∧
      (handlePop GameMode.LEVELS rng now s store b).1.screenShake = 30 ∧
      (handlePop GameMode.LEVELS rng now s store b).1.status = s.status ∧
      (handlePop GameMode.LEVELS rng now s store b).1.levelIndex = s.levelIndex ∧
      (handlePop GameMode.LEVELS rng now s store b).2.2 = none) := by
  constructor
  · intro h
    have hcond : ¬ (s.lives - 1 ≤ 0) := by omega
    by_cases hclear : clampedLevelTarget s.levelIndex ≤ s.score
    · simp [handlePop, hb, hcond, hclear, ge_iff_le]
    · simp [handlePop, hb, hcond, hclear, ge_iff_le]
  · intro h
    have hcond : s.lives - 1 ≤ 0 := by omega
    have hclear : ¬ (clampedLevelTarget s.levelIndex ≤ s.levelScoreStart) := by
      omega
    simp [handlePop, hb, hcond, hclear, restartLevel, ge_iff_le]

/-- Witness for C1 (amended): a level-1 session with 2 lives (hazard pop
leaves 1 life) and a level-1 session with 1 life (hazard pop restarts the
level with score reset to the recorded start 0). -/
theorem c1_levels_hazard_restart_witness :
    (handlePop GameMode.LEVELS (fun _ => 0) 0
      { sampleState with lives := 2, score := 40 } none
      (sampleBubble BubbleType.BOMB)).1.lives = 1 ∧
    (handlePop GameMode.LEVELS (fun _ => 0) 0
      { sampleState with lives := 1, score := 40 } none
      (sampleBubble BubbleType.BOMB)).1.lives = 3 ∧
    (handlePop GameMode.LEVELS (fun _ => 0) 0
      { sampleState with lives := 1, score := 40 } none
      (sampleBubble BubbleType.BOMB)).1.score = 0 ∧
    (handlePop GameMode.LEVELS (fun _ => 0) 0
      { sampleState with lives := 1, score := 40 } none
      (sampleBubble BubbleType.BOMB)).1.levelIndex = 0 := by
  have h1 := c1_levels_hazard_restart (fun _ => 0) 0
    { sampleState with lives := 2, score := 40 } none
    (sampleBubble BubbleType.BOMB) rfl (by decide)
  have h2 := c1_levels_hazard_restart (fun _ => 0) 0
    { sampleState with lives := 1, score := 40 } none
    (sampleBubble BubbleType.BOMB) rfl (by decide)
  have h2r := h2.2 (by decide)
  exact ⟨h1.1 (by decide), h2r.1, h2r.2.2.2.1, h2r.2.2.2.2.2.2.1⟩

/-- A state reachable only after the final level's target has been met:
level index 100 (past the 100-entry table), level-start score equal to the
clamped target 33250, one life left. -/
def afterFinalLevelState : GameState :=
  { status := GameStatus.PLAYING, score := 33250, lives := 1, levelIndex := 100,
    levelScoreStart := 33250, lastSpawnTime := 0, bubbles := [], particles := [],
    inputType := "MOUSE", fingerPos := (0, 0), lastStablePos := (0, 0),
    lastHandTime := 0, screenShake := 0, message := "", messageTimer := 0 }

/-- C1 counterexample: in the state above a hazard pop does deplete the
last life and restart, but the restart score (33250) already meets the
clamped level target, so the same call re-enters the level-advance branch
and increments the level index from 100 to 101 — contradicting the
claim's "level index unchanged". -/
theorem c1_levelIndex_not_preserved :
    (sampleBubble BubbleType.BOMB).type = BubbleType.BOMB ∧
    afterFinalLevelState.lives = 1 ∧
    afterFinalLevelState.levelIndex = 100 ∧
    (handlePop GameMode.LEVELS (fun _ => 0) 0 afterFinalLevelState none
      (sampleBubble BubbleType.BOMB)).1.levelIndex = 101 := by
  refine ⟨rfl, rfl, rfl, ?_⟩
  simp [handlePop, afterFinalLevelState, sampleBubble, restartLevel, ge_iff_le]
  rw [if_pos (show clampedLevelTarget 100 ≤ 33250 from by decide)]

/-! ## Theorems: per-tick pop idempotence claim -/

/-- The ids popped by the tick loop: the pop decision of each visited
bubble (after its move) depends only on the bubble and the pointer, not on
the threaded state, so the event list of `processBubbles` is this pure
selection. -/
noncomputable def popIds (finger : ℝ × ℝ) : List BubbleEntity → List String
  | [] => []
  | b :: rest =>
    let bMoved := { b with y := b.y - b.speed }
    if ¬ bMoved.isPopped ∧
        hypot (bMoved.x - finger.1) (bMoved.y - finger.2) < bMoved.radius * 1.3 then
      bMoved.id :: popIds finger rest
    else popIds finger rest

lemma processBubbles_snd (mode : GameMode) (rng : ℕ → ℝ) (now : Int)
    (finger : ℝ × ℝ) :
    ∀ (l : List BubbleEntity) (s : GameState) (store : CheckpointStore),
      (processBubbles mode rng now finger s store l).2 = popIds finger l := by
  intro l
  induction l with
  | nil => intro s store; rfl
  | cons b rest ih =>
      intro s store
      simp only [processBubbles, popIds]
      split_ifs with h
      · simp only [List.cons.injEq, true_and]
        exact ih _ _
      · exact ih _ _

lemma popIds_sublist (finger : ℝ × ℝ) :
    ∀ l : List BubbleEntity, (popIds finger l).Sublist (l.map BubbleEntity.id)
  | [] => List.Sublist.slnil
  | b :: rest => by
      simp only [popIds, List.map]
      split_ifs with h
      · exact List.Sublist.cons₂ _ (popIds_sublist finger rest)
      · exact List.Sublist.cons _ (popIds_sublist finger rest)

lemma popIds_not_mem_of_isPopped (finger : ℝ × ℝ) :
    ∀ l : List BubbleEntity, (l.map BubbleEntity.id).Nodup →
      ∀ b ∈ l, b.isPopped = true → b.id ∉ popIds finger l := by
  intro l
  induction l with
  | nil => intro _ b hb; exact absurd hb (List.not_mem_nil b)
  | cons hd rest ih =>
      intro hnd b hb hpop
      have hhd : hd.id ∉ rest.map BubbleEntity.id :=
        (List.nodup_cons.mp hnd).1
      have hrest : (rest.map BubbleEntity.id).Nodup :=
        (List.nodup_cons.mp hnd).2
      rcases List.mem_cons.mp hb with hb | hb
      · subst hb
        simp only [popIds]
        rw [if_neg (by simp [hpop])]
        intro hmem
        exact hhd ((popIds_sublist finger rest).subset hmem)
      · simp only [popIds]
        split_ifs with h
        · intro hmem
          rcases List.mem_cons.mp hmem with heq | hmem
          · exact hhd (heq ▸ List.mem_map_of_mem BubbleEntity.id hb)
          · exact ih hrest b hb hpop hmem
        · exact ih hrest b hb hpop

/-- A session state holding two distinct live bubbles that both sit one
pixel under the stabilized pointer after their per-tick move. -/
def twoHitsState : GameState :=
  { sampleState with
      fingerPos := (0, 0)
      bubbles :=
        [{ sampleBubble BubbleType.NORMAL with id := "a", y := 1 },
         { sampleBubble BubbleType.NORMAL with id := "b", y := 1 }] }

/-- C7: within one tick each bubble is resolved at most once — with
pairwise-distinct bubble ids the tick's pop-event list has no duplicate
id, a bubble entering the tick already popped is never resolved — while
several distinct bubbles can all pop in the same tick (witnessed by a
state whose two bubbles both pop). -/
theorem c7_one_pop_per_bubble_per_tick (mode : GameMode) (rng : ℕ → ℝ)
    (now : Int) (finger : ℝ × ℝ) (s : GameState) (store : CheckpointStore)
    (h : (s.bubbles.map BubbleEntity.id).Nodup) :
    ((processBubbles mode rng now finger s store s.bubbles).2).Nodup ∧
    (∀ b ∈ s.bubbles, b.isPopped = true →
      b.id ∉ (processBubbles mode rng now finger s store s.bubbles).2) ∧
    (∃ (s' : GameState) (b1 b2 : BubbleEntity),
      b1.id ≠ b2.id ∧ s'.bubbles = [b1, b2] ∧
      (processBubbles mode rng now s'.fingerPos s' store s'.bubbles).2 =
        [b1.id, b2.id]) := by
  refine ⟨?_, ?_, ?_⟩
  · rw [processBubbles_snd]
    exact h.sublist (popIds_sublist finger s.bubbles)
  · intro b hb hpop
    rw [processBubbles_snd]
    exact popIds_not_mem_of_isPopped finger s.bubbles h b hb hpop
  · refine ⟨twoHitsState,
      { sampleBubble BubbleType.NORMAL with id := "a", y := 1 },
      { sampleBubble BubbleType.NORMAL with id := "b", y := 1 },
      by decide, rfl, ?_⟩
    rw [processBubbles_snd]
    have hdist : hypot ((0 : ℝ) - 0) ((1 - 1) - 0) < 10 * 1.3 := by
      simp only [hypot]
      norm_num [Real.sqrt_zero]
    simp only [twoHitsState, sampleState, sampleBubble, popIds]
    rw [if_pos ⟨by simp, by simpa using hdist⟩,
      if_pos ⟨by simp, by simpa using hdist⟩]

/-- Witness for C7 at a concrete state: the two-bubble state above, whose
tick pops both distinct bubbles exactly once each. -/
theorem c7_one_pop_per_bubble_per_tick_witness :
    ((processBubbles GameMode.LEVELS (fun _ => 0) 0 twoHitsState.fingerPos
        twoHitsState none twoHitsState.bubbles).2).Nodup ∧
    (∃ (s' : GameState) (b1 b2 : BubbleEntity),
      b1.id ≠ b2.id ∧ s'.bubbles = [b1, b2] ∧
      (processBubbles GameMode.LEVELS (fun _ => 0) 0 s'.fingerPos s' none
        s'.bubbles).2 = [b1.id, b2.id]) := by
  have h := c7_one_pop_per_bubble_per_tick GameMode.LEVELS (fun _ => 0) 0
    twoHitsState.fingerPos twoHitsState none (by decide)
  exact ⟨h.1, h.2.2⟩

/-! ## Theorems: one-euro filter claim -/

/-- Euclidean distance between two points of the plane. -/
noncomputable def euclDist (p q : ℝ × ℝ) : ℝ :=
  Real.sqrt ((p.1 - q.1) ^ 2 + (p.2 - q.2) ^ 2)

lemma alpha_mem_Ioo (cutoff dt : ℝ) (hc : 0 < cutoff) (hdt : 0 < dt) :
    0 < OneEuroFilter.alpha cutoff dt ∧ OneEuroFilter.alpha cutoff dt < 1 := by
  have hpi : (0 : ℝ) < 2 * Real.pi * cutoff := by positivity
  have hq : (0 : ℝ) < 1 / (2 * Real.pi * cutoff) / dt := by positivity
  simp only [OneEuroFilter.alpha]
  constructor
  · positivity
  · rw [div_lt_one (by linarith)]
    linarith

lemma lowPass_contract (a x y nx ny : ℝ) (h0 : 0 < a) (h1 : a < 1)
    (hne : (x, y) ≠ ((nx, ny) : ℝ × ℝ)) :
    euclDist (OneEuroFilter.lowPass a x nx, OneEuroFilter.lowPass a y ny) (nx, ny) <
      euclDist (x, y) (nx, ny) := by
  have hx : OneEuroFilter.lowPass a x nx - nx = (1 - a) * (x - nx) := by
    simp only [OneEuroFilter.lowPass]
    ring
  have hy : OneEuroFilter.lowPass a y ny - ny = (1 - a) * (y - ny) := by
    simp only [OneEuroFilter.lowPass]
    ring
  have hne' : ¬(x = nx ∧ y = ny) := by
    intro hc
    exact hne (by rw [hc.1, hc.2])
  have hD : 0 < Real.sqrt ((x - nx) ^ 2 + (y - ny) ^ 2) := by
    apply Real.sqrt_pos.mpr
    rcases not_and_or.mp hne' with h | h
    · have h1' : (x - nx) ^ 2 ≠ 0 := pow_ne_zero 2 (sub_ne_zero.mpr h)
      have h2' := sq_nonneg (x - nx)
      have h3' := sq_nonneg (y - ny)
      have : 0 < (x - nx) ^ 2 := h2'.lt_of_ne (Ne.symm h1')
      linarith
    · have h1' : (y - ny) ^ 2 ≠ 0 := pow_ne_zero 2 (sub_ne_zero.mpr h)
      have h2' := sq_nonneg (x - nx)
      have h3' := sq_nonneg (y - ny)
      have : 0 < (y - ny) ^ 2 := h3'.lt_of_ne (Ne.symm h1')
      linarith
  simp only [euclDist]
  have hsub : (OneEuroFilter.lowPass a x nx - nx) ^ 2 +
      (OneEuroFilter.lowPass a y ny - ny) ^ 2 =
      (1 - a) ^ 2 * ((x - nx) ^ 2 + (y - ny) ^ 2) := by
    rw [hx, hy]
    ring
  rw [hsub, Real.sqrt_mul (sq_nonneg _), Real.sqrt_sq_eq_abs,
    abs_of_pos (by linarith : (0 : ℝ) < 1 - a)]
  nlinarith [mul_pos h0 hD]

lemma update_seeded (mc be dc fdx fdy ft now nx ny x y : ℝ)
    (hmin : 0 < mc) (hbeta : 0 ≤ be) :
    ∃ a, 0 < a ∧ a < 1 ∧
      (OneEuroFilter.update ⟨mc, be, dc, some x, some y, fdx, fdy, ft⟩ now nx ny).2 =
        (OneEuroFilter.lowPass a x nx, OneEuroFilter.lowPass a y ny) := by
  have hdt : (0 : ℝ) < max 0.001 ((now - ft) / 1000) :=
    lt_of_lt_of_le (by norm_num) (le_max_left _ _)
  refine ⟨_, ?_, ?_, rfl⟩
  · refine (alpha_mem_Ioo _ _ ?_ hdt).1
    have hs := Real.sqrt_nonneg
      ((OneEuroFilter.lowPass (OneEuroFilter.alpha dc (max 0.001 ((now - ft) / 1000))) fdx
          ((nx - x) / max 0.001 ((now - ft) / 1000))) ^ 2 +
        (OneEuroFilter.lowPass (OneEuroFilter.alpha dc (max 0.001 ((now - ft) / 1000))) fdy
          ((ny - y) / max 0.001 ((now - ft) / 1000))) ^ 2)
    have hb := mul_nonneg hbeta hs
    show 0 < mc + be * hypot _ _
    simp only [hypot]
    linarith
  · refine (alpha_mem_Ioo _ _ ?_ hdt).2
    have hs := Real.sqrt_nonneg
      ((OneEuroFilter.lowPass (OneEuroFilter.alpha dc (max 0.001 ((now - ft) / 1000))) fdx
          ((nx - x) / max 0.001 ((now - ft) / 1000))) ^ 2 +
        (OneEuroFilter.lowPass (OneEuroFilter.alpha dc (max 0.001 ((now - ft) / 1000))) fdy
          ((ny - y) / max 0.001 ((now - ft) / 1000))) ^ 2)
    have hb := mul_nonneg hbeta hs
    show 0 < mc + be * hypot _ _
    simp only [hypot]
    linarith

/-- C5: the filter's first call returns the raw input verbatim and seeds
the state; on a seeded state the output's distance to the input strictly
shrinks unless it is already zero (and an input equal to the stored point
is returned exactly); and the smoothing coefficient alpha lies strictly
between 0 and 1 for every positive cutoff and dt. -/
theorem c5_oneEuroFilter_convergence (f : OneEuroFilter) (now nx ny : ℝ)
    (hmin : 0 < f.minCutoff) (hbeta : 0 ≤ f.beta) :
    (f.x = none ∨ f.y = none →
      (f.update now nx ny).2 = (nx, ny) ∧
      (f.update now nx ny).1.x = some nx ∧ (f.update now nx ny).1.y = some ny) ∧
    (∀ x y, f.x = some x → f.y = some y →
      ((x, y) ≠ ((nx, ny) : ℝ × ℝ) →
        euclDist (f.update now nx ny).2 (nx, ny) < euclDist (x, y) (nx, ny)) ∧
      ((x, y) = ((nx, ny) : ℝ × ℝ) → (f.update now nx ny).2 = (nx, ny))) ∧
    (∀ cutoff dt : ℝ, 0 < cutoff → 0 < dt →
      0 < OneEuroFilter.alpha cutoff dt ∧ OneEuroFilter.alpha cutoff dt < 1) := by
  obtain ⟨mc, be, dc, fx, fy, fdx, fdy, ft⟩ := f
  refine ⟨?_, ?_, fun cutoff dt hc hdt => alpha_mem_Ioo cutoff dt hc hdt⟩
  · rintro (hx | hy)
    · simp only at hx
      subst hx
      exact ⟨rfl, rfl, rfl⟩
    · simp only at hy
      subst hy
      rcases fx with _ | xv
      · exact ⟨rfl, rfl, rfl⟩
      · exact ⟨rfl, rfl, rfl⟩
  · intro x y hx hy
    simp only at hx hy hmin hbeta
    subst hx hy
    obtain ⟨a, ha0, ha1, heq⟩ :=
      update_seeded mc be dc fdx fdy ft now nx ny x y hmin hbeta
    constructor
    · intro hne
      rw [heq]
      exact lowPass_contract a x y nx ny ha0 ha1 hne
    · intro hxy
      rw [heq]
      have hx' : x = nx := congrArg Prod.fst hxy
      have hy' : y = ny := congrArg Prod.snd hxy
      subst hx' hy'
      simp [OneEuroFilter.lowPass]

/-- Witness for C5: a fresh filter (state seeded at the origin) with the
source's tuning (minCutoff 1.6, beta 0.06) called with the constant input
(1, 0): the output moves strictly closer to the input, and a never-updated
filter returns the raw input. -/
theorem c5_oneEuroFilter_convergence_witness :
    euclDist ((OneEuroFilter.update ⟨1.6, 0.06, 1.0, some 0, some 0, 0, 0, 0⟩
        16 1 0).2) (1, 0) < euclDist ((0 : ℝ), (0 : ℝ)) (1, 0) ∧
    (OneEuroFilter.update ⟨1.6, 0.06, 1.0, none, none, 0, 0, 0⟩ 16 1 0).2 = (1, 0) := by
  constructor
  · refine (((c5_oneEuroFilter_convergence ⟨1.6, 0.06, 1.0, some 0, some 0, 0, 0, 0⟩
      16 1 0 (by norm_num) (by norm_num)).2.1 0 0 rfl rfl).1 ?_)
    intro h
    have h1 := congrArg Prod.fst h
    norm_num at h1
  · exact ((c5_oneEuroFilter_convergence ⟨1.6, 0.06, 1.0, none, none, 0, 0, 0⟩
      16 1 0 (by norm_num) (by norm_num)).1 (Or.inl rfl)).1

end BubblePop
